import Mathlib

/-!
Verification development for the pm-agent repository (source file
src/pm-agent/main.py).  The Python program is shallowly embedded here:

* JSON-like Python values (the structured tool inputs and results) are the
  inductive type `JValue`; Python numbers are modelled as exact rationals.
* Python dictionaries are association lists with first-match lookup (`dget`);
  a raised exception (KeyError, TypeError, AttributeError, ZeroDivisionError)
  is modelled by an `Option` result being `none`.
* `ProductManagerAgent._execute_tool` is `_execute_tool`,
  `ProductManagerAgent._interpret_rice_score` is `_interpret_rice_score`,
  and the agent loop of `ProductManagerAgent.run` is `agentLoop`/`run`,
  driven by a scripted list of provider responses in place of the network.
* The line classification of the interactive loop in `main` is `mainLoopStep`.
-/

namespace PMAgent

/-- JSON-like values, the common type of Python objects that flow through the
tool layer (strings, numbers, booleans, None, lists, dicts).  Python `int` and
`float` are both modelled as exact rationals. -/
inductive JValue where
  | str : String → JValue
  | num : ℚ → JValue
  | bool : Bool → JValue
  | null : JValue
  | arr : List JValue → JValue
  | obj : List (String × JValue) → JValue

/-- Python dict lookup `d.get(key)` / `d[key]` on a string-keyed dict,
modelled as first-match search in an association list. -/
def dget {α : Type} : List (String × α) → String → Option α
  | [], _ => none
  | (k, v) :: fs, key => if k = key then some v else dget fs key

/-- Field access on a `JValue` that is a dict; `none` on anything else. -/
def JValue.lookupField : JValue → String → Option JValue
  | JValue.obj fs, k => dget fs k
  | _, _ => none

/-- Field access through an `Option JValue` (a possibly-raised tool result). -/
def getField (o : Option JValue) (k : String) : Option JValue :=
  o.bind (fun v => v.lookupField k)

/-- A Python value used in arithmetic: numbers are themselves, booleans count
as 1/0 (Python `True`/`False` are ints); anything else raises `TypeError`. -/
def asNum : JValue → Option ℚ
  | JValue.num q => some q
  | JValue.bool b => some (if b then 1 else 0)
  | _ => none

/-- Python `str.lower()` (ASCII range, which is all the program compares). -/
def pyLower (s : String) : String := String.mk (s.data.map Char.toLower)

/-- Python `str.upper()` (ASCII range, which is all the program produces). -/
def pyUpper (s : String) : String := String.mk (s.data.map Char.toUpper)

/-- The whitespace characters stripped by Python `str.strip()`. -/
def isPySpace (c : Char) : Bool :=
  c == ' ' || c == '\t' || c == '\n' || c == '\r' || c == '\x0b' || c == '\x0c'

/-- Python `str.strip()`: drop leading and trailing whitespace. -/
def pyStrip (s : String) : String :=
  String.mk (((s.data.dropWhile isPySpace).reverse.dropWhile isPySpace).reverse)

/-- Smallest exponent `k` with `d ∣ 10 ^ k`, if one exists up to `d`
(it exists exactly when `d` has only 2 and 5 as prime factors, i.e. when the
rational has a terminating decimal expansion, which covers every numeric
literal the simulated data and tests use). -/
def pow10Exp (d : ℕ) : Option ℕ :=
  (List.range (d + 1)).find? (fun k => decide (d ∣ 10 ^ k))

/-- Python `str()` of a number: integers print without a decimal point,
other terminating decimals print in full; the (unreachable for the program's
data) non-terminating case falls back to a fraction rendering. -/
def numStr (q : ℚ) : String :=
  if q.den = 1 then toString q.num
  else
    match pow10Exp q.den with
    | some k =>
      let n : ℕ := q.num.natAbs * (10 ^ k / q.den)
      let sign : String := if q.num < 0 then "-" else ""
      let fracStr := toString (n % 10 ^ k)
      sign ++ toString (n / 10 ^ k) ++ "." ++ ("".pushn '0' (k - fracStr.length)) ++ fracStr
    | none => toString q.num ++ "/" ++ toString q.den

/-- Round a rational to the nearest integer, ties to even — the rounding mode
of Python's `round` and of `format(x, '.1f')`. -/
def roundHalfEven (x : ℚ) : ℤ :=
  let f := ⌊x⌋
  let r := x - (f : ℚ)
  if r < 1 / 2 then f
  else if 1 / 2 < r then f + 1
  else if f % 2 = 0 then f else f + 1

/-- Python `round(x, 2)` on the exact rational value. -/
def round2 (x : ℚ) : ℚ := (roundHalfEven (x * 100) : ℚ) / 100

/-- Python `f"{x:.1f}"`: fixed-point formatting with one decimal digit. -/
def formatFixed1 (x : ℚ) : String :=
  let n := roundHalfEven (x * 10)
  let sign : String := if n < 0 then "-" else ""
  sign ++ toString (n.natAbs / 10) ++ "." ++ toString (n.natAbs % 10)

mutual

/-- Python `repr()` of a JSON-like value (list/dict rendering uses Python
syntax; strings are shown with single quotes — the program never reprs a
string containing a quote, so the quote-choice refinement is irrelevant). -/
def pyRepr : JValue → String
  | JValue.str s => "'" ++ s ++ "'"
  | JValue.num q => numStr q
  | JValue.bool b => if b then "True" else "False"
  | JValue.null => "None"
  | JValue.arr xs => "[" ++ pyReprList xs ++ "]"
  | JValue.obj fs => "\x7b" ++ pyReprObj fs ++ "\x7d"

def pyReprList : List JValue → String
  | [] => ""
  | v :: vs => pyRepr v ++ (if vs.isEmpty then "" else ", ") ++ pyReprList vs

def pyReprObj : List (String × JValue) → String
  | [] => ""
  | (k, v) :: fs =>
    "'" ++ k ++ "': " ++ pyRepr v ++ (if fs.isEmpty then "" else ", ") ++ pyReprObj fs

end

/-- Python `str()` of a JSON-like value, as used by f-string interpolation:
strings are unquoted, everything else as `repr`. -/
def pyStr : JValue → String
  | JValue.str s => s
  | v => pyRepr v

/-- Four lowercase hex digits, as in a `\uXXXX` escape. -/
def hex4 (n : ℕ) : String :=
  let s := String.mk (Nat.toDigits 16 n)
  "".pushn '0' (4 - s.length) ++ s

/-- One character of `json.dumps` string escaping (default `ensure_ascii`;
astral characters, which the program never emits, would use surrogate
pairs in Python and are truncated here). -/
def jsonEscapeChar (c : Char) : String :=
  if c = '"' then "\\\""
  else if c = '\\' then "\\\\"
  else if c = '\n' then "\\n"
  else if c = '\t' then "\\t"
  else if c = '\r' then "\\r"
  else if c = '\x08' then "\\b"
  else if c = '\x0c' then "\\f"
  else if c.toNat < 32 || c.toNat ≥ 127 then "\\u" ++ hex4 (c.toNat % 65536)
  else String.singleton c

/-- `json.dumps` escaping of a whole string. -/
def jsonEscape (s : String) : String := String.join (s.data.map jsonEscapeChar)

mutual

/-- Python `json.dumps` with default separators, used by the agent loop to
serialize a tool result into the `content` of a `tool_result` entry. -/
def dumps : JValue → String
  | JValue.str s => "\"" ++ jsonEscape s ++ "\""
  | JValue.num q => numStr q
  | JValue.bool b => if b then "true" else "false"
  | JValue.null => "null"
  | JValue.arr xs => "[" ++ dumpsList xs ++ "]"
  | JValue.obj fs => "\x7b" ++ dumpsObj fs ++ "\x7d"

def dumpsList : List JValue → String
  | [] => ""
  | v :: vs => dumps v ++ (if vs.isEmpty then "" else ", ") ++ dumpsList vs

def dumpsObj : List (String × JValue) → String
  | [] => ""
  | (k, v) :: fs =>
    "\"" ++ jsonEscape k ++ "\": " ++ dumps v ++ (if fs.isEmpty then "" else ", ") ++ dumpsObj fs

end

/-! ### The simulated data tables of `_execute_tool` (main.py lines 199-206,
219-236, 245-249) -/

/-- `metrics_data["dau"]`. -/
def dau_data : JValue :=
  JValue.obj [("current", JValue.num 15420), ("previous", JValue.num 14850),
    ("change", JValue.str "+3.8%")]

/-- `metrics_data["wau"]`. -/
def wau_data : JValue :=
  JValue.obj [("current", JValue.num 45200), ("previous", JValue.num 43100),
    ("change", JValue.str "+4.9%")]

/-- `metrics_data["mau"]`. -/
def mau_data : JValue :=
  JValue.obj [("current", JValue.num 125000), ("previous", JValue.num 118000),
    ("change", JValue.str "+5.9%")]

/-- `metrics_data["retention"]`. -/
def retention_data : JValue :=
  JValue.obj [("day_1", JValue.str "72%"), ("day_7", JValue.str "45%"),
    ("day_30", JValue.str "28%")]

/-- `metrics_data["nps"]`. -/
def nps_data : JValue :=
  JValue.obj [("score", JValue.num 42), ("promoters", JValue.str "45%"),
    ("detractors", JValue.str "15%")]

/-- `metrics_data["conversion"]`. -/
def conversion_data : JValue :=
  JValue.obj [("rate", JValue.str "3.2%"),
    ("funnel", JValue.obj [("visitors", JValue.num 10000), ("signups", JValue.num 320)])]

/-- The `metrics_data` dict of the `analyze_product_metrics` branch
(main.py lines 199-206). -/
def metrics_data : List (String × JValue) :=
  [("dau", dau_data), ("wau", wau_data), ("mau", mau_data),
   ("retention", retention_data), ("nps", nps_data), ("conversion", conversion_data)]

/-- `roadmap["current"]` (main.py lines 220-227). -/
def roadmap_current : JValue :=
  JValue.obj
    [("quarter", JValue.str "Q4 2024"),
     ("features", JValue.arr
       [JValue.obj [("name", JValue.str "User authentication v2"),
          ("status", JValue.str "in_progress"), ("priority", JValue.str "P0"),
          ("owner", JValue.str "Backend team")],
        JValue.obj [("name", JValue.str "Mobile app redesign"),
          ("status", JValue.str "planning"), ("priority", JValue.str "P1"),
          ("owner", JValue.str "Mobile team")],
        JValue.obj [("name", JValue.str "Analytics dashboard"),
          ("status", JValue.str "completed"), ("priority", JValue.str "P0"),
          ("owner", JValue.str "Frontend team")]])]

/-- `roadmap["next"]` (main.py lines 228-235). -/
def roadmap_next : JValue :=
  JValue.obj
    [("quarter", JValue.str "Q1 2025"),
     ("features", JValue.arr
       [JValue.obj [("name", JValue.str "AI-powered recommendations"),
          ("status", JValue.str "planned"), ("priority", JValue.str "P1"),
          ("owner", JValue.str "ML team")],
        JValue.obj [("name", JValue.str "Team collaboration features"),
          ("status", JValue.str "planned"), ("priority", JValue.str "P0"),
          ("owner", JValue.str "Backend team")],
        JValue.obj [("name", JValue.str "Advanced reporting"),
          ("status", JValue.str "planned"), ("priority", JValue.str "P2"),
          ("owner", JValue.str "Frontend team")]])]

/-- The `roadmap` dict of the `get_roadmap` branch (main.py lines 219-236). -/
def roadmap_data : List (String × JValue) :=
  [("current", roadmap_current), ("next", roadmap_next)]

/-- One row of the `capacity_data` dict (main.py lines 245-249). -/
structure TeamCapacity where
  total_points : ℚ
  committed : ℚ
  available : ℚ
  engineers : ℚ

/-- The dict value a `TeamCapacity` row stands for, as echoed in the
`capacity` field of a `check_team_capacity` result. -/
def TeamCapacity.toJ (c : TeamCapacity) : JValue :=
  JValue.obj [("total_points", JValue.num c.total_points),
    ("committed", JValue.num c.committed), ("available", JValue.num c.available),
    ("engineers", JValue.num c.engineers)]

/-- `capacity_data["backend"]`. -/
def backend_capacity : TeamCapacity := ⟨50, 38, 12, 5⟩

/-- `capacity_data["frontend"]`. -/
def frontend_capacity : TeamCapacity := ⟨40, 35, 5, 4⟩

/-- `capacity_data["mobile"]`. -/
def mobile_capacity : TeamCapacity := ⟨30, 25, 5, 3⟩

/-- The `capacity_data` dict of the `check_team_capacity` branch
(main.py lines 245-249). -/
def capacity_data : List (String × TeamCapacity) :=
  [("backend", backend_capacity), ("frontend", frontend_capacity),
   ("mobile", mobile_capacity)]

/-- `ProductManagerAgent._interpret_rice_score` (main.py lines 267-276). -/
def _interpret_rice_score (score : ℚ) : String :=
  if score ≥ 100 then "Very High Priority - Strong candidate for immediate development"
  else if score ≥ 50 then "High Priority - Should be prioritized in upcoming sprint"
  else if score ≥ 20 then "Medium Priority - Good addition to roadmap"
  else "Low Priority - Consider for future or deprioritize"

/-- `ProductManagerAgent._execute_tool` (main.py lines 152-265).  A `none`
result models a raised exception (missing required key, wrong operand type,
or division by zero); every structured return of the Python code, including
the error payloads, is a `some`. -/
def _execute_tool (tool_name : String) (tool_input : List (String × JValue)) : Option JValue :=
  match tool_name with
  | "calculate_rice_score" =>
    match dget tool_input "reach", dget tool_input "impact",
          dget tool_input "confidence", dget tool_input "effort",
          dget tool_input "feature_name" with
    | some reachV, some impactV, some confidenceV, some effortV, some featureV =>
      match asNum reachV, asNum impactV, asNum confidenceV, asNum effortV with
      | some reach, some impact, some confidenceNum, some effort =>
        if effort = 0 then none
        else
          let confidence := confidenceNum / 100
          let rice_score := reach * impact * confidence / effort
          some (JValue.obj
            [("feature", featureV),
             ("rice_score", JValue.num (round2 rice_score)),
             ("breakdown", JValue.obj
               [("reach", reachV),
                ("impact", impactV),
                ("confidence", JValue.str (pyStr confidenceV ++ "%")),
                ("effort", JValue.str (pyStr effortV ++ " person-months"))]),
             ("interpretation", JValue.str (_interpret_rice_score rice_score))])
      | _, _, _, _ => none
    | _, _, _, _, _ => none
  | "create_user_story" =>
    match dget tool_input "user_type", dget tool_input "goal", dget tool_input "benefit" with
    | some userTypeV, some goalV, some benefitV =>
      let story := "As a " ++ pyStr userTypeV ++ ", I want " ++ pyStr goalV ++
        " so that " ++ pyStr benefitV ++ "."
      let result := [("user_story", JValue.str story),
                     ("format", JValue.str "standard"),
                     ("components", JValue.obj
                       [("user_type", userTypeV), ("goal", goalV), ("benefit", benefitV)])]
      match dget tool_input "acceptance_criteria" with
      | some ac => some (JValue.obj (result ++ [("acceptance_criteria", ac)]))
      | none => some (JValue.obj result)
    | _, _, _ => none
  | "analyze_product_metrics" =>
    match dget tool_input "metric_type", dget tool_input "time_period" with
    | some metricTypeV, some timePeriodV =>
      match metricTypeV with
      | JValue.str metric_type =>
        some (JValue.obj
          [("metric", JValue.str (pyUpper metric_type)),
           ("time_period", timePeriodV),
           ("data", (dget metrics_data metric_type).getD (JValue.obj [])),
           ("note", JValue.str
             "This is simulated data. Connect to your analytics platform for real metrics.")])
      | _ => none
    | _, _ => none
  | "get_roadmap" =>
    match dget tool_input "quarter" with
    | some quarterV =>
      match quarterV with
      | JValue.str q =>
        some ((dget roadmap_data q).getD
          (JValue.obj [("error", JValue.str "Quarter not found. Try 'current' or 'next'")]))
      | JValue.arr _ => none
      | JValue.obj _ => none
      | _ =>
        some (JValue.obj [("error", JValue.str "Quarter not found. Try 'current' or 'next'")])
    | none => none
  | "check_team_capacity" =>
    match dget tool_input "team", dget tool_input "time_period" with
    | some teamV, some timePeriodV =>
      match teamV with
      | JValue.str team =>
        match dget capacity_data (pyLower team) with
        | some team_data =>
          let utilization := team_data.committed / team_data.total_points * 100
          some (JValue.obj
            [("team", JValue.str team),
             ("time_period", timePeriodV),
             ("capacity", team_data.toJ),
             ("utilization", JValue.str (formatFixed1 utilization ++ "%")),
             ("recommendation", JValue.str
               (if utilization < 85 then "Good capacity" else "Team is at capacity"))])
        | none =>
          some (JValue.obj [("error", JValue.str
            ("Team '" ++ team ++ "' not found. Available teams: backend, frontend, mobile"))])
      | _ => none
    | _, _ => none
  | _ => some (JValue.obj [("error", JValue.str ("Unknown tool: " ++ tool_name))])

/-! ### The agent loop of `ProductManagerAgent.run` (main.py lines 278-328) -/

/-- A content block of a provider response: the response's `content` list
holds text blocks (which have a `.text` attribute) and tool-use blocks
(`block.type == "tool_use"`, carrying an `id`, a `name` and an `input`). -/
inductive Block where
  | text : String → Block
  | toolUse : String → String → List (String × JValue) → Block

/-- A provider response: a `stop_reason` and the ordered content blocks. -/
structure Response where
  stop_reason : String
  content : List Block

/-- One `tool_result` entry collected for the user-role results message
(main.py lines 318-322). -/
structure ToolResultEntry where
  type : String
  tool_use_id : String
  content : String

/-- The content of a conversation message: the initial user text, an
assistant response's blocks, or a list of tool results. -/
inductive MessageContent where
  | text : String → MessageContent
  | blocks : List Block → MessageContent
  | results : List ToolResultEntry → MessageContent

/-- A conversation message (a `{"role": ..., "content": ...}` dict). -/
structure Message where
  role : String
  content : MessageContent

/-- How one call to `ProductManagerAgent.run` ends in the model:
`finalText` is a normal `return`, `exn` is a Python exception escaping the
loop (a tool execution raised), and `outOfScript` marks the point where the
loop sends a request the finite script cannot answer. -/
inductive Outcome where
  | finalText : String → Outcome
  | exn : Outcome
  | outOfScript : Outcome

/-- The `end_turn` branch (main.py lines 295-300): concatenate the `.text`
of every text-bearing block, in order. -/
def finalTextOf : List Block → String
  | [] => ""
  | Block.text t :: rest => t ++ finalTextOf rest
  | Block.toolUse _ _ _ :: rest => finalTextOf rest

/-- The tool-execution `for` loop (main.py lines 308-322): one serialized
`tool_result` entry per tool-use block, in emission order, with the block's
`id` copied into `tool_use_id`; text blocks contribute nothing.  `none`
models a tool call raising, which aborts the whole turn. -/
def toolResultsFor : List Block → Option (List ToolResultEntry)
  | [] => some []
  | Block.text _ :: rest => toolResultsFor rest
  | Block.toolUse i n inp :: rest =>
    match _execute_tool n inp with
    | none => none
    | some r =>
      match toolResultsFor rest with
      | none => none
      | some es => some (ToolResultEntry.mk "tool_result" i (dumps r) :: es)

/-- The `while True` agent loop (main.py lines 285-328), driven by a finite
script of provider responses in place of `self.client.messages.create`.
The first component of the result records, in order, every conversation the
loop submits to the provider (including a final unanswered submission when
the script runs out); the second is how the loop ends. -/
def agentLoop : List Response → List Message → List (List Message) × Outcome
  | [], ms => ([ms], Outcome.outOfScript)
  | r :: rest, ms =>
    if r.stop_reason = "end_turn" then
      ([ms], Outcome.finalText (finalTextOf r.content))
    else if r.stop_reason = "tool_use" then
      match toolResultsFor r.content with
      | none => ([ms], Outcome.exn)
      | some trs =>
        let next := agentLoop rest
          (ms ++ [Message.mk "assistant" (MessageContent.blocks r.content),
                  Message.mk "user" (MessageContent.results trs)])
        (ms :: next.1, next.2)
    else
      ([ms], Outcome.finalText ("Unexpected stop reason: " ++ r.stop_reason))

/-- `ProductManagerAgent.run` (main.py lines 278-328): start a fresh
conversation holding only the user message and enter the loop. -/
def run (script : List Response) (user_message : String) :
    List (List Message) × Outcome :=
  agentLoop script [Message.mk "user" (MessageContent.text user_message)]

/-! ### The interactive session shell of `main` (main.py lines 356-367) -/

/-- What the session shell does with one operator line. -/
inductive ShellAction where
  | ignore : ShellAction
  | endSession : ShellAction
  | forward : String → ShellAction

/-- One iteration of the `while True` read loop in `main` (main.py lines
356-367): the line is stripped; an empty result is skipped; `quit`, `exit`
and `q` (case-insensitively) end the session; anything else is sent to
`agent.run` as a fresh query. -/
def mainLoopStep (line : String) : ShellAction :=
  let user_input := pyStrip line
  if user_input = "" then ShellAction.ignore
  else if pyLower user_input ∈ (["quit", "exit", "q"] : List String) then ShellAction.endSession
  else ShellAction.forward user_input


/-! ## Claims -/

/-- Claim C1: for every numeric input to `calculate_rice_score` with effort
different from 0, the `rice_score` field of the result equals
`round(reach * impact * (confidence / 100) / effort, 2)`: the confidence
percentage is divided by 100 before the multiplication and the quotient is
rounded to 2 decimal places. -/
theorem c1_rice_score_formula (featureV : JValue) (reach impact conf eff : ℚ)
    (h : eff ≠ 0) :
    getField (_execute_tool "calculate_rice_score"
        [("feature_name", featureV), ("reach", JValue.num reach),
         ("impact", JValue.num impact), ("confidence", JValue.num conf),
         ("effort", JValue.num eff)]) "rice_score"
      = some (JValue.num (round2 (reach * impact * (conf / 100) / eff))) := by
  simp [_execute_tool, getField, JValue.lookupField, asNum, dget, h]

/-- Witness for C1 at a concrete input: reach 5000, impact 2, confidence 75%,
effort 2 gives a rice_score of 3750. -/
theorem c1_rice_score_formula_witness :
    ((2 : ℚ) ≠ 0) ∧
    getField (_execute_tool "calculate_rice_score"
        [("feature_name", JValue.str "Feature"), ("reach", JValue.num 5000),
         ("impact", JValue.num 2), ("confidence", JValue.num 75),
         ("effort", JValue.num 2)]) "rice_score"
      = some (JValue.num 3750) := by
  constructor
  · norm_num
  · have h := c1_rice_score_formula (JValue.str "Feature") 5000 2 75 2 (by norm_num)
    rw [h]
    norm_num [round2, roundHalfEven]

/-- Counterexample to claim C2 as stated: on reach 99996, impact 1,
confidence 100%, effort 1000 the raw score is 99.996, so the returned
`rice_score` field is exactly 100 while the `interpretation` field is the
"High Priority" band — not the "Very High Priority" band that the documented
thresholds assign to a score of 100. -/
theorem c2_interpretation_counterexample :
    getField (_execute_tool "calculate_rice_score"
        [("feature_name", JValue.str "F"), ("reach", JValue.num 99996),
         ("impact", JValue.num 1), ("confidence", JValue.num 100),
         ("effort", JValue.num 1000)]) "rice_score"
      = some (JValue.num 100)
    ∧ getField (_execute_tool "calculate_rice_score"
        [("feature_name", JValue.str "F"), ("reach", JValue.num 99996),
         ("impact", JValue.num 1), ("confidence", JValue.num 100),
         ("effort", JValue.num 1000)]) "interpretation"
      = some (JValue.str "High Priority - Should be prioritized in upcoming sprint")
    ∧ _interpret_rice_score 100
      = "Very High Priority - Strong candidate for immediate development"
    ∧ ("High Priority - Should be prioritized in upcoming sprint" : String)
      ≠ "Very High Priority - Strong candidate for immediate development" := by
  refine ⟨?_, ?_, ?_, by decide⟩
  · simp [_execute_tool, getField, JValue.lookupField, asNum, dget]
    norm_num [round2, roundHalfEven]
  · simp [_execute_tool, getField, JValue.lookupField, asNum, dget]
    norm_num [_interpret_rice_score]
  · norm_num [_interpret_rice_score]

/-- Claim C2 (amended): the `interpretation` field is the documented band of
the unrounded quotient `reach * impact * (confidence / 100) / effort`
(≥ 100 very high, ≥ 50 high, ≥ 20 medium, else low, inclusive on the upper
band); at a band boundary the rounded `rice_score` field may therefore fall
in a higher band than the reported interpretation. -/
theorem c2_interpretation_amended (featureV : JValue) (reach impact conf eff : ℚ)
    (h : eff ≠ 0) :
    getField (_execute_tool "calculate_rice_score"
        [("feature_name", featureV), ("reach", JValue.num reach),
         ("impact", JValue.num impact), ("confidence", JValue.num conf),
         ("effort", JValue.num eff)]) "interpretation"
      = some (JValue.str (_interpret_rice_score (reach * impact * (conf / 100) / eff)))
    ∧ (∀ s : ℚ, 100 ≤ s →
        _interpret_rice_score s = "Very High Priority - Strong candidate for immediate development")
    ∧ (∀ s : ℚ, 50 ≤ s → s < 100 →
        _interpret_rice_score s = "High Priority - Should be prioritized in upcoming sprint")
    ∧ (∀ s : ℚ, 20 ≤ s → s < 50 →
        _interpret_rice_score s = "Medium Priority - Good addition to roadmap")
    ∧ (∀ s : ℚ, s < 20 →
        _interpret_rice_score s = "Low Priority - Consider for future or deprioritize") := by
  refine ⟨?_, ?_, ?_, ?_, ?_⟩
  · simp [_execute_tool, getField, JValue.lookupField, asNum, dget, h]
  · intro s hs
    simp only [_interpret_rice_score]
    rw [if_pos hs]
  · intro s h1 h2
    simp only [_interpret_rice_score]
    rw [if_neg (by exact not_le.mpr h2), if_pos h1]
  · intro s h1 h2
    simp only [_interpret_rice_score]
    rw [if_neg (by exact not_le.mpr (by linarith)), if_neg (by exact not_le.mpr h2),
      if_pos h1]
  · intro s h1
    simp only [_interpret_rice_score]
    rw [if_neg (by exact not_le.mpr (by linarith)), if_neg (by exact not_le.mpr (by linarith)),
      if_neg (by exact not_le.mpr h1)]

/-- Witness for the amended C2 at a concrete input: the raw score 3750 is
interpreted as very high priority. -/
theorem c2_interpretation_amended_witness :
    ((2 : ℚ) ≠ 0) ∧
    getField (_execute_tool "calculate_rice_score"
        [("feature_name", JValue.str "Feature"), ("reach", JValue.num 5000),
         ("impact", JValue.num 2), ("confidence", JValue.num 75),
         ("effort", JValue.num 2)]) "interpretation"
      = some (JValue.str "Very High Priority - Strong candidate for immediate development") := by
  constructor
  · norm_num
  · have h := (c2_interpretation_amended (JValue.str "Feature") 5000 2 75 2 (by norm_num)).1
    rw [h]
    norm_num [_interpret_rice_score]

/-- The tool-execution loop produces one entry per tool-use block, in order,
with the block's correlation id copied and the constant entry type
`"tool_result"`; text blocks contribute nothing. -/
theorem toolResults_spec (bs : List Block) :
    ∀ trs, toolResultsFor bs = some trs →
      trs.map (fun e => e.tool_use_id)
        = bs.filterMap (fun b => match b with
            | Block.toolUse i _ _ => some i
            | Block.text _ => none)
      ∧ ∀ e ∈ trs, e.type = "tool_result" := by
  induction bs with
  | nil =>
    intro trs h
    simp only [toolResultsFor, Option.some.injEq] at h
    subst h
    simp
  | cons b rest ih =>
    cases b with
    | text t =>
      intro trs h
      simp only [toolResultsFor] at h
      simpa using ih trs h
    | toolUse i n inp =>
      intro trs h
      simp only [toolResultsFor] at h
      rcases hx : _execute_tool n inp with _ | r
      · rw [hx] at h
        simp at h
      · rw [hx] at h
        rcases hr : toolResultsFor rest with _ | es
        · rw [hr] at h
          simp at h
        · rw [hr] at h
          simp only [Option.some.injEq] at h
          subst h
          obtain ⟨h1, h2⟩ := ih es hr
          refine ⟨by simpa using h1, ?_⟩
          intro e he
          rcases List.mem_cons.mp he with rfl | he
          · rfl
          · exact h2 e he

/-- Claim C3: for every provider response whose stop reason is `tool_use`,
the loop produces exactly one `tool_result` entry per tool-use block, in
emission order, each carrying that block's correlation identifier unchanged
(non-tool blocks produce none); the entries are collected into a single
user-role message appended — after the assistant message — to the
conversation that the next provider request carries.  If a tool execution
raises, no results message is built and no further request is sent. -/
theorem c3_tool_results (ms : List Message) (r : Response) (rest : List Response)
    (h : r.stop_reason = "tool_use") :
    (∀ trs, toolResultsFor r.content = some trs →
      agentLoop (r :: rest) ms
        = (ms :: (agentLoop rest
              (ms ++ [Message.mk "assistant" (MessageContent.blocks r.content),
                      Message.mk "user" (MessageContent.results trs)])).1,
           (agentLoop rest
              (ms ++ [Message.mk "assistant" (MessageContent.blocks r.content),
                      Message.mk "user" (MessageContent.results trs)])).2)
      ∧ trs.map (fun e => e.tool_use_id)
          = r.content.filterMap (fun b => match b with
              | Block.toolUse i _ _ => some i
              | Block.text _ => none)
      ∧ (∀ e ∈ trs, e.type = "tool_result"))
    ∧ (toolResultsFor r.content = none →
        agentLoop (r :: rest) ms = ([ms], Outcome.exn)) := by
  constructor
  · intro trs htrs
    refine ⟨?_, (toolResults_spec r.content trs htrs).1, (toolResults_spec r.content trs htrs).2⟩
    simp [agentLoop, h, htrs]
  · intro hnone
    simp [agentLoop, h, hnone]

/-- Witness for C3: a scripted provider that requests one unknown tool and
then ends the turn.  The loop sends exactly two requests; the second carries
the assistant blocks plus a single-entry user results message whose entry
keeps the correlation id `toolu_01`. -/
theorem c3_tool_results_witness :
    (Response.mk "tool_use"
        [Block.text "thinking", Block.toolUse "toolu_01" "nope" []]).stop_reason
      = "tool_use"
    ∧ toolResultsFor [Block.text "thinking", Block.toolUse "toolu_01" "nope" []]
      = some [ToolResultEntry.mk "tool_result" "toolu_01"
          "\x7b\"error\": \"Unknown tool: nope\"\x7d"]
    ∧ agentLoop
        [Response.mk "tool_use" [Block.text "thinking", Block.toolUse "toolu_01" "nope" []],
         Response.mk "end_turn" [Block.text "done"]]
        [Message.mk "user" (MessageContent.text "hi")]
      = ([[Message.mk "user" (MessageContent.text "hi")],
          [Message.mk "user" (MessageContent.text "hi"),
           Message.mk "assistant" (MessageContent.blocks
             [Block.text "thinking", Block.toolUse "toolu_01" "nope" []]),
           Message.mk "user" (MessageContent.results
             [ToolResultEntry.mk "tool_result" "toolu_01"
               "\x7b\"error\": \"Unknown tool: nope\"\x7d"])]],
         Outcome.finalText "done")
    ∧ [ToolResultEntry.mk "tool_result" "toolu_01"
        "\x7b\"error\": \"Unknown tool: nope\"\x7d"].map (fun e => e.tool_use_id)
      = ["toolu_01"] := by
  have hd : toolResultsFor [Block.text "thinking", Block.toolUse "toolu_01" "nope" []]
      = some [ToolResultEntry.mk "tool_result" "toolu_01"
          "\x7b\"error\": \"Unknown tool: nope\"\x7d"] := by rfl
  have h := (c3_tool_results [Message.mk "user" (MessageContent.text "hi")]
    (Response.mk "tool_use" [Block.text "thinking", Block.toolUse "toolu_01" "nope" []])
    [Response.mk "end_turn" [Block.text "done"]] rfl).1
    [ToolResultEntry.mk "tool_result" "toolu_01"
      "\x7b\"error\": \"Unknown tool: nope\"\x7d"] hd
  refine ⟨rfl, hd, ?_, h.2.1⟩
  rw [h.1]
  rfl

/-- Claim C8: for every provider response whose stop reason is neither
`end_turn` nor `tool_use`, the loop terminates immediately — the trace shows
only the one request that produced this response — and returns a descriptive
message naming the unrecognized reason as the final answer text, without
raising. -/
theorem c8_unexpected_stop (ms : List Message) (r : Response) (rest : List Response)
    (h1 : r.stop_reason ≠ "end_turn") (h2 : r.stop_reason ≠ "tool_use") :
    agentLoop (r :: rest) ms
      = ([ms], Outcome.finalText ("Unexpected stop reason: " ++ r.stop_reason)) := by
  simp [agentLoop, h1, h2]

/-- Witness for C8 at the concrete stop reason `max_tokens`. -/
theorem c8_unexpected_stop_witness :
    ((Response.mk "max_tokens" [Block.text "partial"]).stop_reason ≠ "end_turn")
    ∧ ((Response.mk "max_tokens" [Block.text "partial"]).stop_reason ≠ "tool_use")
    ∧ agentLoop
        [Response.mk "max_tokens" [Block.text "partial"],
         Response.mk "end_turn" [Block.text "never reached"]]
        [Message.mk "user" (MessageContent.text "hi")]
      = ([[Message.mk "user" (MessageContent.text "hi")]],
         Outcome.finalText "Unexpected stop reason: max_tokens") := by
  refine ⟨by decide, by decide, ?_⟩
  exact c8_unexpected_stop [Message.mk "user" (MessageContent.text "hi")]
    (Response.mk "max_tokens" [Block.text "partial"])
    [Response.mk "end_turn" [Block.text "never reached"]] (by decide) (by decide)

/-- Claim C4: for every `check_team_capacity` input whose team name,
lowercased, is `backend`, `frontend` or `mobile`, the result reports
utilization `committed / total * 100` formatted to one decimal place with a
percent sign and the recommendation "Good capacity" when utilization < 85
("Team is at capacity" otherwise) — backend is "76.0%" / "Good capacity",
frontend "87.5%" / "Team is at capacity", mobile "83.3%" / "Good capacity";
any other team name yields an error payload naming the three valid teams. -/
theorem c4_team_capacity (team : String) (tp : JValue) :
    (pyLower team = "backend" →
      _execute_tool "check_team_capacity" [("team", JValue.str team), ("time_period", tp)]
        = some (JValue.obj
            [("team", JValue.str team), ("time_period", tp),
             ("capacity", JValue.obj
               [("total_points", JValue.num 50), ("committed", JValue.num 38),
                ("available", JValue.num 12), ("engineers", JValue.num 5)]),
             ("utilization", JValue.str "76.0%"),
             ("recommendation", JValue.str "Good capacity")]))
    ∧ (pyLower team = "frontend" →
      _execute_tool "check_team_capacity" [("team", JValue.str team), ("time_period", tp)]
        = some (JValue.obj
            [("team", JValue.str team), ("time_period", tp),
             ("capacity", JValue.obj
               [("total_points", JValue.num 40), ("committed", JValue.num 35),
                ("available", JValue.num 5), ("engineers", JValue.num 4)]),
             ("utilization", JValue.str "87.5%"),
             ("recommendation", JValue.str "Team is at capacity")]))
    ∧ (pyLower team = "mobile" →
      _execute_tool "check_team_capacity" [("team", JValue.str team), ("time_period", tp)]
        = some (JValue.obj
            [("team", JValue.str team), ("time_period", tp),
             ("capacity", JValue.obj
               [("total_points", JValue.num 30), ("committed", JValue.num 25),
                ("available", JValue.num 5), ("engineers", JValue.num 3)]),
             ("utilization", JValue.str "83.3%"),
             ("recommendation", JValue.str "Good capacity")]))
    ∧ (pyLower team ∉ (["backend", "frontend", "mobile"] : List String) →
      _execute_tool "check_team_capacity" [("team", JValue.str team), ("time_period", tp)]
        = some (JValue.obj [("error", JValue.str
            ("Team '" ++ team ++ "' not found. Available teams: backend, frontend, mobile"))])) := by
  refine ⟨?_, ?_, ?_, ?_⟩
  · intro h
    have hval : formatFixed1 ((38 : ℚ) / 50 * 100) = "76.0" := by
      have hr : roundHalfEven ((38 : ℚ) / 50 * 100 * 10) = 760 := by
        norm_num [roundHalfEven]
      simp only [formatFixed1, hr]
      rfl
    have hlt : ((38 : ℚ) / 50 * 100 < 85) = True := by norm_num
    simp [_execute_tool, dget, capacity_data, backend_capacity, TeamCapacity.toJ,
      h, hval, hlt]
  · intro h
    have hval : formatFixed1 ((35 : ℚ) / 40 * 100) = "87.5" := by
      have hr : roundHalfEven ((35 : ℚ) / 40 * 100 * 10) = 875 := by
        norm_num [roundHalfEven]
      simp only [formatFixed1, hr]
      rfl
    have hlt : ((35 : ℚ) / 40 * 100 < 85) = False := by norm_num
    simp [_execute_tool, dget, capacity_data, frontend_capacity, TeamCapacity.toJ,
      h, hval, hlt]
  · intro h
    have hval : formatFixed1 ((25 : ℚ) / 30 * 100) = "83.3" := by
      have hr : roundHalfEven ((25 : ℚ) / 30 * 100 * 10) = 833 := by
        norm_num [roundHalfEven]
      simp only [formatFixed1, hr]
      rfl
    have hlt : ((25 : ℚ) / 30 * 100 < 85) = True := by norm_num
    simp [_execute_tool, dget, capacity_data, mobile_capacity, TeamCapacity.toJ,
      h, hval, hlt]
  · intro h
    simp only [List.mem_cons, List.mem_singleton, not_or] at h
    obtain ⟨h1, h2, h3, -⟩ := h
    simp [_execute_tool, dget, capacity_data, Ne.symm h1, Ne.symm h2, Ne.symm h3]

/-- Witness for C4: the mixed-case team "Backend" (exercising the
case-insensitive lookup) and the unknown team "qa". -/
theorem c4_team_capacity_witness :
    (pyLower "Backend" = "backend")
    ∧ _execute_tool "check_team_capacity"
        [("team", JValue.str "Backend"), ("time_period", JValue.str "next_sprint")]
      = some (JValue.obj
          [("team", JValue.str "Backend"), ("time_period", JValue.str "next_sprint"),
           ("capacity", JValue.obj
             [("total_points", JValue.num 50), ("committed", JValue.num 38),
              ("available", JValue.num 12), ("engineers", JValue.num 5)]),
           ("utilization", JValue.str "76.0%"),
           ("recommendation", JValue.str "Good capacity")])
    ∧ (pyLower "qa" ∉ (["backend", "frontend", "mobile"] : List String))
    ∧ _execute_tool "check_team_capacity"
        [("team", JValue.str "qa"), ("time_period", JValue.str "next_sprint")]
      = some (JValue.obj [("error", JValue.str
          "Team 'qa' not found. Available teams: backend, frontend, mobile")]) := by
  refine ⟨rfl, ?_, by decide, ?_⟩
  · exact (c4_team_capacity "Backend" (JValue.str "next_sprint")).1 rfl
  · exact (c4_team_capacity "qa" (JValue.str "next_sprint")).2.2.2 (by decide)

/-- Claim C5: `get_roadmap` on the quarter "current" and on the quarter
"next" returns exactly the feature list stored in the roadmap table for
that key, and for every other quarter string it returns (without raising) a
structured error payload whose text is the literal guidance
"Quarter not found. Try 'current' or 'next'". -/
theorem c5_roadmap (q : String) :
    (dget roadmap_data "current" = some roadmap_current
      ∧ _execute_tool "get_roadmap" [("quarter", JValue.str "current")]
          = some roadmap_current)
    ∧ (dget roadmap_data "next" = some roadmap_next
      ∧ _execute_tool "get_roadmap" [("quarter", JValue.str "next")]
          = some roadmap_next)
    ∧ (q ≠ "current" → q ≠ "next" →
      _execute_tool "get_roadmap" [("quarter", JValue.str q)]
        = some (JValue.obj
            [("error", JValue.str "Quarter not found. Try 'current' or 'next'")])) := by
  refine ⟨⟨rfl, rfl⟩, ⟨rfl, rfl⟩, ?_⟩
  intro h1 h2
  simp [_execute_tool, dget, roadmap_data, Ne.symm h1, Ne.symm h2]

/-- Witness for C5 at the unknown quarter "Q1_2024". -/
theorem c5_roadmap_witness :
    ("Q1_2024" ≠ "current") ∧ ("Q1_2024" ≠ "next")
    ∧ _execute_tool "get_roadmap" [("quarter", JValue.str "Q1_2024")]
      = some (JValue.obj
          [("error", JValue.str "Quarter not found. Try 'current' or 'next'")]) := by
  exact ⟨by decide, by decide, (c5_roadmap "Q1_2024").2.2 (by decide) (by decide)⟩

/-- Counterexample to claim C6 as stated: the result does not echo the
requested metric key — for the request "dau" the `metric` field holds the
uppercased "DAU", not "dau". -/
theorem c6_metric_echo_counterexample :
    getField (_execute_tool "analyze_product_metrics"
        [("metric_type", JValue.str "dau"), ("time_period", JValue.str "last_week")])
        "metric"
      = some (JValue.str "DAU")
    ∧ some (JValue.str "DAU") ≠ some (JValue.str "dau") := by
  refine ⟨rfl, ?_⟩
  simp

/-- Claim C6 (amended): for each of the six known metric keys
`analyze_product_metrics` returns that key's fixed static payload as its
`data` field, and for every other metric key an empty data object rather
than an error; the result echoes the requested metric uppercased and the
`time_period` unchanged. -/
theorem c6_metrics_amended (metric : String) (tp : JValue) :
    _execute_tool "analyze_product_metrics"
        [("metric_type", JValue.str metric), ("time_period", tp)]
      = some (JValue.obj
          [("metric", JValue.str (pyUpper metric)),
           ("time_period", tp),
           ("data", (dget metrics_data metric).getD (JValue.obj [])),
           ("note", JValue.str
             "This is simulated data. Connect to your analytics platform for real metrics.")])
    ∧ dget metrics_data "dau" = some dau_data
    ∧ dget metrics_data "wau" = some wau_data
    ∧ dget metrics_data "mau" = some mau_data
    ∧ dget metrics_data "retention" = some retention_data
    ∧ dget metrics_data "nps" = some nps_data
    ∧ dget metrics_data "conversion" = some conversion_data
    ∧ (metric ∉ (["dau", "wau", "mau", "retention", "nps", "conversion"] : List String) →
        dget metrics_data metric = none) := by
  refine ⟨?_, rfl, rfl, rfl, rfl, rfl, rfl, ?_⟩
  · simp [_execute_tool, dget]
  · intro h
    simp only [List.mem_cons, List.mem_singleton, not_or] at h
    obtain ⟨h1, h2, h3, h4, h5, h6, -⟩ := h
    simp [metrics_data, dget, Ne.symm h1, Ne.symm h2, Ne.symm h3, Ne.symm h4,
      Ne.symm h5, Ne.symm h6]

/-- Witness for the amended C6: the known key "nps" returns its stored
payload; the unknown key "growth" falls through to an empty data object. -/
theorem c6_metrics_amended_witness :
    _execute_tool "analyze_product_metrics"
        [("metric_type", JValue.str "nps"), ("time_period", JValue.str "last_month")]
      = some (JValue.obj
          [("metric", JValue.str "NPS"),
           ("time_period", JValue.str "last_month"),
           ("data", JValue.obj [("score", JValue.num 42), ("promoters", JValue.str "45%"),
             ("detractors", JValue.str "15%")]),
           ("note", JValue.str
             "This is simulated data. Connect to your analytics platform for real metrics.")])
    ∧ ("growth" ∉ (["dau", "wau", "mau", "retention", "nps", "conversion"] : List String))
    ∧ dget metrics_data "growth" = none
    ∧ _execute_tool "analyze_product_metrics"
        [("metric_type", JValue.str "growth"), ("time_period", JValue.str "last_month")]
      = some (JValue.obj
          [("metric", JValue.str "GROWTH"),
           ("time_period", JValue.str "last_month"),
           ("data", JValue.obj []),
           ("note", JValue.str
             "This is simulated data. Connect to your analytics platform for real metrics.")]) := by
  refine ⟨?_, by decide, ?_, ?_⟩
  · have h := (c6_metrics_amended "nps" (JValue.str "last_month")).1
    rw [h]
    rfl
  · exact (c6_metrics_amended "growth" (JValue.str "last_month")).2.2.2.2.2.2.2 (by decide)
  · have h := (c6_metrics_amended "growth" (JValue.str "last_month")).1
    rw [h]
    rfl

/-- Claim C7: for all non-empty strings `user_type`, `goal`, `benefit`, the
user story sentence returned by `create_user_story` is exactly
"As a \x7buser_type\x7d, I want \x7bgoal\x7d so that \x7bbenefit\x7d.";
a supplied acceptance-criteria list appears in the result unchanged, and
when it is absent the result has no acceptance-criteria entry. -/
theorem c7_user_story (ut g b : String) (_hut : ut ≠ "") (_hg : g ≠ "") (_hb : b ≠ "") :
    (getField (_execute_tool "create_user_story"
        [("user_type", JValue.str ut), ("goal", JValue.str g), ("benefit", JValue.str b)])
        "user_story"
      = some (JValue.str ("As a " ++ ut ++ ", I want " ++ g ++ " so that " ++ b ++ ".")))
    ∧ (getField (_execute_tool "create_user_story"
        [("user_type", JValue.str ut), ("goal", JValue.str g), ("benefit", JValue.str b)])
        "acceptance_criteria"
      = none)
    ∧ ∀ ac : JValue,
        (getField (_execute_tool "create_user_story"
            [("user_type", JValue.str ut), ("goal", JValue.str g), ("benefit", JValue.str b),
             ("acceptance_criteria", ac)])
            "user_story"
          = some (JValue.str ("As a " ++ ut ++ ", I want " ++ g ++ " so that " ++ b ++ ".")))
        ∧ getField (_execute_tool "create_user_story"
            [("user_type", JValue.str ut), ("goal", JValue.str g), ("benefit", JValue.str b),
             ("acceptance_criteria", ac)])
            "acceptance_criteria"
          = some ac := by
  exact ⟨rfl, rfl, fun ac => ⟨rfl, rfl⟩⟩

/-- Witness for C7 at concrete non-empty strings, with and without an
acceptance-criteria list. -/
theorem c7_user_story_witness :
    (("admin" : String) ≠ "") ∧ (("to review logs" : String) ≠ "")
    ∧ (("issues are caught early" : String) ≠ "")
    ∧ getField (_execute_tool "create_user_story"
        [("user_type", JValue.str "admin"), ("goal", JValue.str "to review logs"),
         ("benefit", JValue.str "issues are caught early")])
        "user_story"
      = some (JValue.str
          "As a admin, I want to review logs so that issues are caught early.")
    ∧ getField (_execute_tool "create_user_story"
        [("user_type", JValue.str "admin"), ("goal", JValue.str "to review logs"),
         ("benefit", JValue.str "issues are caught early"),
         ("acceptance_criteria", JValue.arr [JValue.str "logs are listed"])])
        "acceptance_criteria"
      = some (JValue.arr [JValue.str "logs are listed"]) := by
  have h := c7_user_story "admin" "to review logs" "issues are caught early"
    (by decide) (by decide) (by decide)
  exact ⟨by decide, by decide, by decide, h.1,
    (h.2.2 (JValue.arr [JValue.str "logs are listed"])).2⟩

/-- Claim C10: `create_user_story` includes an `acceptance_criteria` entry in
its result exactly when that key is present in the input — the result's
`acceptance_criteria` field always equals the input's `acceptance_criteria`
lookup — and in particular a supplied empty list is echoed, not omitted. -/
theorem c10_acceptance_criteria_presence :
    (∀ (inp : List (String × JValue)) (r : JValue),
      _execute_tool "create_user_story" inp = some r →
        JValue.lookupField r "acceptance_criteria" = dget inp "acceptance_criteria")
    ∧ ∀ (ut g b : String),
        getField (_execute_tool "create_user_story"
            [("user_type", JValue.str ut), ("goal", JValue.str g),
             ("benefit", JValue.str b), ("acceptance_criteria", JValue.arr [])])
          "acceptance_criteria"
        = some (JValue.arr []) := by
  constructor
  · intro inp r h
    simp only [_execute_tool] at h
    rcases h1 : dget inp "user_type" with _ | utV
    · rw [h1] at h; simp at h
    · rw [h1] at h
      rcases h2 : dget inp "goal" with _ | gV
      · rw [h2] at h; simp at h
      · rw [h2] at h
        rcases h3 : dget inp "benefit" with _ | bV
        · rw [h3] at h; simp at h
        · rw [h3] at h
          rcases h4 : dget inp "acceptance_criteria" with _ | ac
          · rw [h4] at h
            simp only [Option.some.injEq] at h
            subst h
            rfl
          · rw [h4] at h
            simp only [Option.some.injEq] at h
            subst h
            rfl
  · intro ut g b
    rfl

/-- Witness for C10 on a concrete input carrying an empty
acceptance-criteria list, which is echoed into the result. -/
theorem c10_acceptance_criteria_presence_witness :
    _execute_tool "create_user_story"
        [("user_type", JValue.str "admin"), ("goal", JValue.str "to audit"),
         ("benefit", JValue.str "of safety"), ("acceptance_criteria", JValue.arr [])]
      = some (JValue.obj
          [("user_story", JValue.str "As a admin, I want to audit so that of safety."),
           ("format", JValue.str "standard"),
           ("components", JValue.obj
             [("user_type", JValue.str "admin"), ("goal", JValue.str "to audit"),
              ("benefit", JValue.str "of safety")]),
           ("acceptance_criteria", JValue.arr [])])
    ∧ JValue.lookupField (JValue.obj
          [("user_story", JValue.str "As a admin, I want to audit so that of safety."),
           ("format", JValue.str "standard"),
           ("components", JValue.obj
             [("user_type", JValue.str "admin"), ("goal", JValue.str "to audit"),
              ("benefit", JValue.str "of safety")]),
           ("acceptance_criteria", JValue.arr [])])
        "acceptance_criteria"
      = dget [("user_type", JValue.str "admin"), ("goal", JValue.str "to audit"),
           ("benefit", JValue.str "of safety"), ("acceptance_criteria", JValue.arr [])]
          "acceptance_criteria" := by
  refine ⟨rfl, ?_⟩
  exact c10_acceptance_criteria_presence.1
    [("user_type", JValue.str "admin"), ("goal", JValue.str "to audit"),
     ("benefit", JValue.str "of safety"), ("acceptance_criteria", JValue.arr [])]
    (JValue.obj
      [("user_story", JValue.str "As a admin, I want to audit so that of safety."),
       ("format", JValue.str "standard"),
       ("components", JValue.obj
         [("user_type", JValue.str "admin"), ("goal", JValue.str "to audit"),
          ("benefit", JValue.str "of safety")]),
       ("acceptance_criteria", JValue.arr [])])
    rfl

/-- Every submission the loop makes starts from the conversation it was
entered with: the first recorded request of a run is the fresh single-user
conversation. -/
theorem agentLoop_head (script : List Response) (ms : List Message) :
    (agentLoop script ms).1.head? = some ms := by
  cases script with
  | nil => rfl
  | cons r rest =>
    by_cases h1 : r.stop_reason = "end_turn"
    · simp [agentLoop, h1]
    · by_cases h2 : r.stop_reason = "tool_use"
      · rcases h3 : toolResultsFor r.content with _ | trs <;>
          simp [agentLoop, h1, h2, h3]
      · simp [agentLoop, h1, h2]

/-- Counterexample to claim C9 as stated: the shell does not forward other
lines verbatim — the line is stripped first, so "  hello  " is forwarded as
"hello". -/
theorem c9_verbatim_counterexample :
    mainLoopStep "  hello  " = ShellAction.forward "hello"
    ∧ ("hello" : String) ≠ "  hello  " := by
  exact ⟨rfl, by decide⟩

/-- Claim C9 (amended): the session shell strips each operator line of
surrounding whitespace first; if the stripped line is empty it is ignored
and no request is sent; if the stripped line matches `quit`, `exit` or `q`
case-insensitively the session ends; otherwise the stripped line is
forwarded to the agent loop, which starts a new, independent conversation
containing only that query. -/
theorem c9_shell_amended (line : String) :
    (pyStrip line = "" → mainLoopStep line = ShellAction.ignore)
    ∧ (pyStrip line ≠ "" →
        pyLower (pyStrip line) ∈ (["quit", "exit", "q"] : List String) →
        mainLoopStep line = ShellAction.endSession)
    ∧ (pyStrip line ≠ "" →
        pyLower (pyStrip line) ∉ (["quit", "exit", "q"] : List String) →
        mainLoopStep line = ShellAction.forward (pyStrip line))
    ∧ ∀ (script : List Response) (q : String),
        (run script q).1.head? = some [Message.mk "user" (MessageContent.text q)] := by
  refine ⟨?_, ?_, ?_, ?_⟩
  · intro h
    simp [mainLoopStep, h]
  · intro h1 h2
    simp [mainLoopStep, h1, h2]
  · intro h1 h2
    simp [mainLoopStep, h1, h2]
  · intro script q
    exact agentLoop_head script [Message.mk "user" (MessageContent.text q)]

/-- Witness for the amended C9: "  Q  " ends the session after stripping and
lowercasing; " hi " is forwarded as the stripped "hi". -/
theorem c9_shell_amended_witness :
    (pyStrip "  Q  " ≠ "")
    ∧ pyLower (pyStrip "  Q  ") ∈ (["quit", "exit", "q"] : List String)
    ∧ mainLoopStep "  Q  " = ShellAction.endSession
    ∧ (pyStrip " hi " ≠ "")
    ∧ pyLower (pyStrip " hi ") ∉ (["quit", "exit", "q"] : List String)
    ∧ mainLoopStep " hi " = ShellAction.forward (pyStrip " hi ") := by
  refine ⟨by decide, by decide, ?_, by decide, by decide, ?_⟩
  · exact (c9_shell_amended "  Q  ").2.1 (by decide) (by decide)
  · exact (c9_shell_amended " hi ").2.2.1 (by decide) (by decide)
